import Mathlib

/-!
Shallow embedding of the native AEAD boundary of AesGcmSiv.Net
(src/Native/aesgcmsiv.h, src/Native/aesgcmsiv.cpp, src/Native/mock_aesgcmsiv.cpp).

Byte buffers are modelled as `List Nat` (each element a byte value); a C
pointer that may be null is modelled as `Option (List Nat)` (with `none` for
a null pointer), and the separate C length parameter for key/nonce/aad is the
length of the list.  Caller-supplied output buffers are modelled by their
initial contents (`List Nat`), with nullness of an output pointer carried as
a separate `Bool`; writing `n` bytes into a buffer overwrites its first `n`
bytes and leaves the rest unchanged.
-/

namespace AesGcmSiv

/-- `#define AESGCMSIV_KEY_SIZE 32` (aesgcmsiv.h). -/
def AESGCMSIV_KEY_SIZE : Nat := 32

/-- `#define AESGCMSIV_NONCE_SIZE 12` (aesgcmsiv.h). -/
def AESGCMSIV_NONCE_SIZE : Nat := 12

/-- `#define AESGCMSIV_TAG_SIZE 16` (aesgcmsiv.h). -/
def AESGCMSIV_TAG_SIZE : Nat := 16

/-- `#define AESGCMSIV_SUCCESS 0` (aesgcmsiv.h). -/
def AESGCMSIV_SUCCESS : Int := 0

/-- `#define AESGCMSIV_ERROR_INVALID_KEY -1` (aesgcmsiv.h). -/
def AESGCMSIV_ERROR_INVALID_KEY : Int := -1

/-- `#define AESGCMSIV_ERROR_INVALID_NONCE -2` (aesgcmsiv.h). -/
def AESGCMSIV_ERROR_INVALID_NONCE : Int := -2

/-- `#define AESGCMSIV_ERROR_INVALID_INPUT -3` (aesgcmsiv.h). -/
def AESGCMSIV_ERROR_INVALID_INPUT : Int := -3

/-- `#define AESGCMSIV_ERROR_INVALID_TAG -4` (aesgcmsiv.h). -/
def AESGCMSIV_ERROR_INVALID_TAG : Int := -4

/-- `#define AESGCMSIV_ERROR_DECRYPT_FAILED -5` (aesgcmsiv.h). -/
def AESGCMSIV_ERROR_DECRYPT_FAILED : Int := -5

/-- `#define AESGCMSIV_ERROR_INTERNAL -6` (aesgcmsiv.h). -/
def AESGCMSIV_ERROR_INTERNAL : Int := -6

/-- Writing `new.length` bytes at the start of a caller buffer `buf`:
the written bytes replace the corresponding prefix, the rest of the buffer
keeps its previous contents. -/
def writeBytes (buf new : List Nat) : List Nat :=
  new ++ buf.drop new.length

/-- The C condition `!key || key_len != AESGCMSIV_KEY_SIZE` (both backends). -/
def keyBad (key : Option (List Nat)) : Bool :=
  match key with
  | none => true
  | some k => k.length != AESGCMSIV_KEY_SIZE

/-- The C condition `!nonce || nonce_len != AESGCMSIV_NONCE_SIZE` (both backends). -/
def nonceBad (nonce : Option (List Nat)) : Bool :=
  match nonce with
  | none => true
  | some n => n.length != AESGCMSIV_NONCE_SIZE

/-- The C condition `aad && !aad_len` (mock backend only). -/
def aadPresentEmpty (aad : Option (List Nat)) : Bool :=
  match aad with
  | none => false
  | some a => a.length == 0

/-- The loop body of the mock transform, carrying the running index `i`:
`out[i] = in[i] ^ key[i % 32] ^ nonce[i % 12]`
(mock_aesgcmsiv.cpp lines 32-34 and 67-69; the same loop is used by
encrypt and decrypt). -/
def xorStreamAux (key nonce : List Nat) : Nat → List Nat → List Nat
  | _, [] => []
  | i, b :: rest =>
      ((b ^^^ key.getD (i % 32) 0) ^^^ nonce.getD (i % 12) 0) ::
        xorStreamAux key nonce (i + 1) rest

/-- The mock transform starting at index 0. -/
def xorStream (key nonce bytes : List Nat) : List Nat :=
  xorStreamAux key nonce 0 bytes

/-- The mock tag: `tag_out[i] = (key[i] + nonce[i % 12] + plaintext_len) & 0xFF`
for `i = 0 .. 15` (mock_aesgcmsiv.cpp lines 37-39). -/
def mockTag (key nonce : List Nat) (len : Nat) : List Nat :=
  (List.range AESGCMSIV_TAG_SIZE).map
    (fun i => (key.getD i 0 + nonce.getD (i % 12) 0 + len) % 256)

/-- The mock tag verification loop of `aesgcmsiv_decrypt`
(mock_aesgcmsiv.cpp lines 72-77): every byte of the supplied tag must match
the expected pattern, which depends only on key, nonce and ciphertext length. -/
def mockTagMatches (tag key nonce : List Nat) (len : Nat) : Bool :=
  (List.range AESGCMSIV_TAG_SIZE).all
    (fun i => tag.getD i 0 == (key.getD i 0 + nonce.getD (i % 12) 0 + len) % 256)

/-- Result of an encrypt call: return code plus the final contents of the
two caller-supplied output buffers. -/
structure EncResult where
  ret : Int
  ct : List Nat
  tag : List Nat
  deriving DecidableEq, Repr

/-- Result of a decrypt call: return code plus the final contents of the
caller-supplied plaintext output buffer. -/
structure DecResult where
  ret : Int
  pt : List Nat
  deriving DecidableEq, Repr

namespace Mock

/-- `aesgcmsiv_encrypt` of the test-double backend
(mock_aesgcmsiv.cpp lines 9-42): ordered validation (key, nonce, required
buffers, then the mock-only `aad && !aad_len` check), then the XOR transform
into the ciphertext buffer and the length-based tag into the tag buffer. -/
def aesgcmsiv_encrypt (key nonce plaintext aad : Option (List Nat))
    (ctNull tagNull : Bool) (ctBuf tagBuf : List Nat) : EncResult :=
  if keyBad key then ⟨AESGCMSIV_ERROR_INVALID_KEY, ctBuf, tagBuf⟩
  else if nonceBad nonce then ⟨AESGCMSIV_ERROR_INVALID_NONCE, ctBuf, tagBuf⟩
  else if plaintext.isNone || ctNull || tagNull then
    ⟨AESGCMSIV_ERROR_INVALID_INPUT, ctBuf, tagBuf⟩
  else if aadPresentEmpty aad then ⟨AESGCMSIV_ERROR_INVALID_INPUT, ctBuf, tagBuf⟩
  else
    let k := key.getD []
    let n := nonce.getD []
    let p := plaintext.getD []
    ⟨AESGCMSIV_SUCCESS, writeBytes ctBuf (xorStream k n p),
      writeBytes tagBuf (mockTag k n p.length)⟩

/-- `aesgcmsiv_decrypt` of the test-double backend
(mock_aesgcmsiv.cpp lines 44-80): ordered validation, then the XOR transform
is written into the plaintext buffer, and only afterwards is the tag checked
against the expected pattern; a mismatch returns `DECRYPT_FAILED` with the
plaintext buffer already overwritten. -/
def aesgcmsiv_decrypt (key nonce ciphertext aad tag : Option (List Nat))
    (ptNull : Bool) (ptBuf : List Nat) : DecResult :=
  if keyBad key then ⟨AESGCMSIV_ERROR_INVALID_KEY, ptBuf⟩
  else if nonceBad nonce then ⟨AESGCMSIV_ERROR_INVALID_NONCE, ptBuf⟩
  else if ciphertext.isNone || tag.isNone || ptNull then
    ⟨AESGCMSIV_ERROR_INVALID_INPUT, ptBuf⟩
  else if aadPresentEmpty aad then ⟨AESGCMSIV_ERROR_INVALID_INPUT, ptBuf⟩
  else
    let k := key.getD []
    let n := nonce.getD []
    let c := ciphertext.getD []
    let t := tag.getD []
    let out := writeBytes ptBuf (xorStream k n c)
    if mockTagMatches t k n c.length then ⟨AESGCMSIV_SUCCESS, out⟩
    else ⟨AESGCMSIV_ERROR_DECRYPT_FAILED, out⟩

end Mock

namespace Production

/-- `validate_encrypt_params` of the production backend
(aesgcmsiv.cpp lines 7-25): key, then nonce, then required buffers; empty
AAD is explicitly allowed (no AAD check at all). -/
def validate_encrypt_params (key nonce plaintext : Option (List Nat))
    (ctNull tagNull : Bool) : Int :=
  if keyBad key then AESGCMSIV_ERROR_INVALID_KEY
  else if nonceBad nonce then AESGCMSIV_ERROR_INVALID_NONCE
  else if plaintext.isNone || ctNull || tagNull then AESGCMSIV_ERROR_INVALID_INPUT
  else AESGCMSIV_SUCCESS

/-- `validate_decrypt_params` of the production backend
(aesgcmsiv.cpp lines 27-45): key, then nonce, then required buffers; empty
AAD is explicitly allowed. -/
def validate_decrypt_params (key nonce ciphertext tag : Option (List Nat))
    (ptNull : Bool) : Int :=
  if keyBad key then AESGCMSIV_ERROR_INVALID_KEY
  else if nonceBad nonce then AESGCMSIV_ERROR_INVALID_NONCE
  else if ciphertext.isNone || tag.isNone || ptNull then AESGCMSIV_ERROR_INVALID_INPUT
  else AESGCMSIV_SUCCESS

/-- The AAD bytes the production backend actually feeds to the engine:
`EVP_EncryptUpdate`/`EVP_DecryptUpdate` with the AAD is called only under
`aad && aad_len > 0` (aesgcmsiv.cpp lines 87 and 156), so a null AAD and a
present-but-empty AAD both result in no AAD bytes being fed. -/
def aadFed (aad : Option (List Nat)) : List Nat :=
  match aad with
  | none => []
  | some a => if a.length > 0 then a else []

/-- Outcome of the external OpenSSL encrypt sequence
(context allocation, cipher fetch, init, AAD update, plaintext update,
final, get-tag), abstracted: either it succeeds producing ciphertext and
tag bytes, or some step fails after having possibly written some bytes
into the output buffers.  Every failing step of the C encrypt path returns
`AESGCMSIV_ERROR_INTERNAL`. -/
inductive EncEngineOutcome where
  | ok (ct tag : List Nat)
  | fail (ctWritten tagWritten : List Nat)

/-- An abstract encrypt engine: a function of the validated key, nonce,
fed AAD and plaintext. -/
def EncEngine : Type :=
  List Nat → List Nat → List Nat → List Nat → EncEngineOutcome

/-- Outcome of the external OpenSSL decrypt sequence, abstracted along the
branch structure of `aesgcmsiv_decrypt` (aesgcmsiv.cpp lines 134-184):
initialization failure maps to `INTERNAL`, rejection of the tag set-up to
`INVALID_TAG`, a failing decrypt update or a failing finalization to
`DECRYPT_FAILED` (each after having possibly written bytes), success to
`SUCCESS` with the recovered plaintext written. -/
inductive DecEngineOutcome where
  | ok (pt : List Nat)
  | initFail
  | tagSetupFail
  | updateFail (written : List Nat)
  | finalFail (written : List Nat)

/-- An abstract decrypt engine: a function of the validated key, nonce,
fed AAD, ciphertext and tag. -/
def DecEngine : Type :=
  List Nat → List Nat → List Nat → List Nat → List Nat → DecEngineOutcome

/-- `aesgcmsiv_encrypt` of the production backend (aesgcmsiv.cpp lines
49-116), parametrized by the abstract engine: validation first (returning
the validation error with the output buffers untouched), then the engine
runs and its outputs are written into the caller buffers; any engine
failure is `AESGCMSIV_ERROR_INTERNAL`. -/
def aesgcmsiv_encrypt (engine : EncEngine)
    (key nonce plaintext aad : Option (List Nat))
    (ctNull tagNull : Bool) (ctBuf tagBuf : List Nat) : EncResult :=
  let v := validate_encrypt_params key nonce plaintext ctNull tagNull
  if v != AESGCMSIV_SUCCESS then ⟨v, ctBuf, tagBuf⟩
  else
    match engine (key.getD []) (nonce.getD []) (aadFed aad) (plaintext.getD []) with
    | .ok ct tg => ⟨AESGCMSIV_SUCCESS, writeBytes ctBuf ct, writeBytes tagBuf tg⟩
    | .fail w1 w2 => ⟨AESGCMSIV_ERROR_INTERNAL, writeBytes ctBuf w1, writeBytes tagBuf w2⟩

/-- `aesgcmsiv_decrypt` of the production backend (aesgcmsiv.cpp lines
118-185), parametrized by the abstract engine: validation first (returning
the validation error with the plaintext buffer untouched), then the engine
outcome is mapped onto the error taxonomy. -/
def aesgcmsiv_decrypt (engine : DecEngine)
    (key nonce ciphertext aad tag : Option (List Nat))
    (ptNull : Bool) (ptBuf : List Nat) : DecResult :=
  let v := validate_decrypt_params key nonce ciphertext tag ptNull
  if v != AESGCMSIV_SUCCESS then ⟨v, ptBuf⟩
  else
    match engine (key.getD []) (nonce.getD []) (aadFed aad) (ciphertext.getD [])
        (tag.getD []) with
    | .ok pt => ⟨AESGCMSIV_SUCCESS, writeBytes ptBuf pt⟩
    | .initFail => ⟨AESGCMSIV_ERROR_INTERNAL, ptBuf⟩
    | .tagSetupFail => ⟨AESGCMSIV_ERROR_INVALID_TAG, ptBuf⟩
    | .updateFail w => ⟨AESGCMSIV_ERROR_DECRYPT_FAILED, writeBytes ptBuf w⟩
    | .finalFail w => ⟨AESGCMSIV_ERROR_DECRYPT_FAILED, writeBytes ptBuf w⟩

end Production

/-- Flipping bit `b` of a byte value. -/
def flipByte (v b : Nat) : Nat := v ^^^ (2 ^ b)

/-- Flipping bit `b` of byte `i` of a buffer. -/
def flipBit (l : List Nat) (i b : Nat) : List Nat :=
  l.set i (flipByte (l.getD i 0) b)

/-! ### Helper lemmas -/

theorem xor_cancel (y a : Nat) : (y ^^^ a) ^^^ a = y := by
  rw [Nat.xor_assoc, Nat.xor_self, Nat.xor_zero]

theorem xor_unstep (x a b : Nat) : (((x ^^^ a) ^^^ b) ^^^ a) ^^^ b = x := by
  have h : (x ^^^ a) ^^^ b = (x ^^^ b) ^^^ a := by
    rw [Nat.xor_assoc, Nat.xor_comm a b, ← Nat.xor_assoc]
  rw [h, xor_cancel, xor_cancel]

theorem xorStreamAux_length (key nonce : List Nat) :
    ∀ (i : Nat) (bs : List Nat), (xorStreamAux key nonce i bs).length = bs.length := by
  intro i bs
  induction bs generalizing i with
  | nil => rfl
  | cons b rest ih => simp [xorStreamAux, ih]

theorem xorStream_length (key nonce bs : List Nat) :
    (xorStream key nonce bs).length = bs.length :=
  xorStreamAux_length key nonce 0 bs

theorem xorStreamAux_invol (key nonce : List Nat) :
    ∀ (i : Nat) (bs : List Nat),
      xorStreamAux key nonce i (xorStreamAux key nonce i bs) = bs := by
  intro i bs
  induction bs generalizing i with
  | nil => rfl
  | cons b rest ih => simp [xorStreamAux, ih, xor_unstep]

theorem xorStream_invol (key nonce bs : List Nat) :
    xorStream key nonce (xorStream key nonce bs) = bs :=
  xorStreamAux_invol key nonce 0 bs

theorem writeBytes_of_le (buf new : List Nat) (h : buf.length ≤ new.length) :
    writeBytes buf new = new := by
  simp [writeBytes, List.drop_eq_nil_of_le h]

theorem writeBytes_length (buf new : List Nat) (h : new.length ≤ buf.length) :
    (writeBytes buf new).length = buf.length := by
  simp [writeBytes]
  omega

theorem mockTag_length (key nonce : List Nat) (len : Nat) :
    (mockTag key nonce len).length = 16 := by
  simp [mockTag, AESGCMSIV_TAG_SIZE]

theorem mockTag_getD (key nonce : List Nat) (len i : Nat) (h : i < 16) :
    (mockTag key nonce len).getD i 0 =
      (key.getD i 0 + nonce.getD (i % 12) 0 + len) % 256 := by
  simp only [mockTag, AESGCMSIV_TAG_SIZE, List.getD_eq_getElem?_getD,
    List.getElem?_map, List.getElem?_range, h, if_pos]
  simp [List.getD_eq_getElem?_getD]

theorem mockTagMatches_self (key nonce : List Nat) (len : Nat) :
    mockTagMatches (mockTag key nonce len) key nonce len = true := by
  rw [mockTagMatches, List.all_eq_true]
  intro i hi
  rw [List.mem_range] at hi
  have h16 : i < 16 := by simpa [AESGCMSIV_TAG_SIZE] using hi
  simp only [beq_iff_eq]
  rw [mockTag_getD key nonce len i h16]

theorem mockTagMatches_eq_false (t key nonce : List Nat) (len i : Nat)
    (hi : i < 16)
    (h : t.getD i 0 ≠ (key.getD i 0 + nonce.getD (i % 12) 0 + len) % 256) :
    mockTagMatches t key nonce len = false := by
  cases hb : mockTagMatches t key nonce len with
  | false => rfl
  | true =>
      rw [mockTagMatches, List.all_eq_true] at hb
      have hx := hb i (by rw [List.mem_range]; simpa [AESGCMSIV_TAG_SIZE] using hi)
      simp only [beq_iff_eq] at hx
      exact absurd hx h

theorem mock_decrypt_ret (k n c t : List Nat) (aad : Option (List Nat))
    (hk : k.length = 32) (hn : n.length = 12)
    (haad : aadPresentEmpty aad = false) (ptBuf : List Nat) :
    Mock.aesgcmsiv_decrypt (some k) (some n) (some c) aad (some t) false ptBuf =
      ⟨if mockTagMatches t k n c.length then AESGCMSIV_SUCCESS
        else AESGCMSIV_ERROR_DECRYPT_FAILED,
       writeBytes ptBuf (xorStream k n c)⟩ := by
  rw [Mock.aesgcmsiv_decrypt]
  simp [keyBad, nonceBad, hk, hn, haad, AESGCMSIV_KEY_SIZE, AESGCMSIV_NONCE_SIZE]
  cases hb : mockTagMatches t k n c.length <;> simp [hb]

theorem mock_encrypt_eq (k n p : List Nat) (aad : Option (List Nat))
    (hk : k.length = 32) (hn : n.length = 12)
    (haad : aadPresentEmpty aad = false) (ctBuf tagBuf : List Nat) :
    Mock.aesgcmsiv_encrypt (some k) (some n) (some p) aad false false ctBuf tagBuf =
      ⟨AESGCMSIV_SUCCESS, writeBytes ctBuf (xorStream k n p),
        writeBytes tagBuf (mockTag k n p.length)⟩ := by
  rw [Mock.aesgcmsiv_encrypt]
  simp [keyBad, nonceBad, hk, hn, haad, AESGCMSIV_KEY_SIZE, AESGCMSIV_NONCE_SIZE]

theorem flipByte_ne (v b : Nat) : flipByte v b ≠ v := by
  intro he
  have h2 := congrArg (fun x => x.testBit b) he
  simp [flipByte, Nat.testBit_xor, Nat.testBit_two_pow_self] at h2

theorem flipByte_lt (v b : Nat) (hv : v < 256) (hb : b < 8) : flipByte v b < 256 := by
  have hp : (2 : Nat) ^ b < 2 ^ 8 := Nat.pow_lt_pow_right (by omega) hb
  simpa using Nat.xor_lt_two_pow (show v < 2 ^ 8 by omega) (show 2 ^ b < 2 ^ 8 by omega)

theorem getD_eq_getElem (l : List Nat) (i : Nat) (hi : i < l.length) :
    l.getD i 0 = l.get ⟨i, hi⟩ := by
  simp [List.getD_eq_getElem?_getD, List.getElem?_eq_getElem hi]

theorem getD_lt_of_bytes (l : List Nat) (i : Nat) (h : ∀ x ∈ l, x < 256)
    (hi : i < l.length) : l.getD i 0 < 256 := by
  rw [getD_eq_getElem l i hi]
  exact h _ (List.getElem_mem hi)

theorem getD_set_self (l : List Nat) (i x : Nat) (h : i < l.length) :
    (l.set i x).getD i 0 = x := by
  simp [List.getD_eq_getElem?_getD, List.getElem?_set_self, h]

theorem getD_set_ne (l : List Nat) (i j x : Nat) (h : i ≠ j) :
    (l.set i x).getD j 0 = l.getD j 0 := by
  simp [List.getD_eq_getElem?_getD, List.getElem?_set_ne, h]

theorem flipBit_length (l : List Nat) (i b : Nat) :
    (flipBit l i b).length = l.length := by
  simp [flipBit]

theorem flipBit_getD_self (l : List Nat) (i b : Nat) (h : i < l.length) :
    (flipBit l i b).getD i 0 = flipByte (l.getD i 0) b :=
  getD_set_self l i _ h

theorem flipBit_getD_ne (l : List Nat) (i b j : Nat) (h : i ≠ j) :
    (flipBit l i b).getD j 0 = l.getD j 0 :=
  getD_set_ne l i j _ h

theorem tag_byte_ne_key (x y nn len : Nat) (hx : x < 256) (hy : y < 256)
    (hne : x ≠ y) : (x + nn + len) % 256 ≠ (y + nn + len) % 256 := by omega

theorem tag_byte_ne_nonce (kk x y len : Nat) (hx : x < 256) (hy : y < 256)
    (hne : x ≠ y) : (kk + x + len) % 256 ≠ (kk + y + len) % 256 := by omega

/-! ### Claims -/

/-- C1: for every valid key (32 bytes), nonce (12 bytes), plaintext, and aad,
calling Open on the ciphertext and tag produced by Seal with the identical
key, nonce, and aad succeeds and returns exactly the original plaintext,
for the test-double backend. -/
theorem C1_mock_roundtrip (k n p : List Nat) (aad : Option (List Nat))
    (hk : k.length = 32) (hn : n.length = 12)
    (haad : aadPresentEmpty aad = false)
    (ctBuf tagBuf ptBuf : List Nat)
    (hct : ctBuf.length ≤ p.length) (htag : tagBuf.length ≤ 16)
    (hpt : ptBuf.length ≤ p.length) :
    (Mock.aesgcmsiv_encrypt (some k) (some n) (some p) aad false false
        ctBuf tagBuf).ret = AESGCMSIV_SUCCESS ∧
    Mock.aesgcmsiv_decrypt (some k) (some n)
        (some (Mock.aesgcmsiv_encrypt (some k) (some n) (some p) aad false false
          ctBuf tagBuf).ct)
        aad
        (some (Mock.aesgcmsiv_encrypt (some k) (some n) (some p) aad false false
          ctBuf tagBuf).tag)
        false ptBuf =
      ⟨AESGCMSIV_SUCCESS, p⟩ := by
  rw [mock_encrypt_eq k n p aad hk hn haad ctBuf tagBuf]
  refine ⟨rfl, ?_⟩
  have hctw : writeBytes ctBuf (xorStream k n p) = xorStream k n p :=
    writeBytes_of_le _ _ (by rw [xorStream_length]; exact hct)
  have htagw : writeBytes tagBuf (mockTag k n p.length) = mockTag k n p.length :=
    writeBytes_of_le _ _ (by rw [mockTag_length]; exact htag)
  simp only [hctw, htagw]
  rw [mock_decrypt_ret _ _ _ _ aad hk hn haad ptBuf]
  rw [xorStream_length, mockTagMatches_self, xorStream_invol]
  simp
  exact writeBytes_of_le _ _ (by omega)

/-- C2 counterexample: with the zero key, the zero nonce, plaintext `[0]`
and no AAD, Seal produces ciphertext `[0]` and tag `16 × 1`; flipping bit 0
of ciphertext byte 0 gives `[1]`, and Open on the tampered ciphertext
returns `SUCCESS`, not `DECRYPT_FAILED` — the mock tag depends only on the
ciphertext length, so a ciphertext bit flip is not detected. -/
theorem C2_counterexample :
    Mock.aesgcmsiv_encrypt (some (List.replicate 32 0)) (some (List.replicate 12 0))
        (some [0]) none false false [0] (List.replicate 16 0) =
      ⟨AESGCMSIV_SUCCESS, [0], List.replicate 16 1⟩ ∧
    flipBit [0] 0 0 = [1] ∧
    (Mock.aesgcmsiv_decrypt (some (List.replicate 32 0)) (some (List.replicate 12 0))
        (some (flipBit [0] 0 0)) none (some (List.replicate 16 1)) false [0]).ret =
      AESGCMSIV_SUCCESS := by decide

/-- C2 amended: for the test-double backend, after a successful Seal of
`(key, nonce, plaintext, aad)` to `(ciphertext, tag)`, flipping any single
bit of the tag, of the nonce, or of one of the first 16 key bytes causes
Open to return `DECRYPT_FAILED`; but flipping a single bit of the
ciphertext, replacing the aad by any other valid aad, or flipping a single
bit of one of the last 16 key bytes is not detected: Open returns
`SUCCESS`. -/
theorem C2_amended (k n p c t : List Nat) (aad : Option (List Nat))
    (hk : k.length = 32) (hn : n.length = 12)
    (haad : aadPresentEmpty aad = false)
    (hkb : ∀ x ∈ k, x < 256) (hnb : ∀ x ∈ n, x < 256)
    (ctBuf tagBuf : List Nat)
    (hcb : ctBuf.length ≤ p.length) (htb : tagBuf.length ≤ 16)
    (hseal : Mock.aesgcmsiv_encrypt (some k) (some n) (some p) aad false false
        ctBuf tagBuf = ⟨AESGCMSIV_SUCCESS, c, t⟩)
    (ptBuf : List Nat) :
    (∀ i b, i < 16 → b < 8 →
      (Mock.aesgcmsiv_decrypt (some (flipBit k i b)) (some n) (some c) aad
        (some t) false ptBuf).ret = AESGCMSIV_ERROR_DECRYPT_FAILED) ∧
    (∀ j b, j < 12 → b < 8 →
      (Mock.aesgcmsiv_decrypt (some k) (some (flipBit n j b)) (some c) aad
        (some t) false ptBuf).ret = AESGCMSIV_ERROR_DECRYPT_FAILED) ∧
    (∀ i b, i < 16 → b < 8 →
      (Mock.aesgcmsiv_decrypt (some k) (some n) (some c) aad
        (some (flipBit t i b)) false ptBuf).ret = AESGCMSIV_ERROR_DECRYPT_FAILED) ∧
    (∀ i b, i < p.length → b < 8 →
      (Mock.aesgcmsiv_decrypt (some k) (some n) (some (flipBit c i b)) aad
        (some t) false ptBuf).ret = AESGCMSIV_SUCCESS) ∧
    (∀ aad2, aadPresentEmpty aad2 = false →
      (Mock.aesgcmsiv_decrypt (some k) (some n) (some c) aad2
        (some t) false ptBuf).ret = AESGCMSIV_SUCCESS) ∧
    (∀ i b, 16 ≤ i → i < 32 → b < 8 →
      (Mock.aesgcmsiv_decrypt (some (flipBit k i b)) (some n) (some c) aad
        (some t) false ptBuf).ret = AESGCMSIV_SUCCESS) := by
  have henc := mock_encrypt_eq k n p aad hk hn haad ctBuf tagBuf
  rw [hseal] at henc
  have hc : c = xorStream k n p := by
    have := congrArg EncResult.ct henc
    simpa [writeBytes_of_le ctBuf (xorStream k n p)
      (by rw [xorStream_length]; exact hcb)] using this
  have ht : t = mockTag k n p.length := by
    have := congrArg EncResult.tag henc
    simpa [writeBytes_of_le tagBuf (mockTag k n p.length)
      (by rw [mockTag_length]; exact htb)] using this
  have hclen : c.length = p.length := by rw [hc, xorStream_length]
  have htlen : t.length = 16 := by rw [ht, mockTag_length]
  refine ⟨?_, ?_, ?_, ?_, ?_, ?_⟩
  · -- bit flip in key bytes 0..15 is detected
    intro i b hi hb
    have hk' : (flipBit k i b).length = 32 := by rw [flipBit_length]; exact hk
    rw [mock_decrypt_ret _ _ _ _ aad hk' hn haad ptBuf]
    have hx : k.getD i 0 < 256 := getD_lt_of_bytes k i hkb (by omega)
    have hne : t.getD i 0 ≠
        ((flipBit k i b).getD i 0 + n.getD (i % 12) 0 + c.length) % 256 := by
      rw [ht, mockTag_getD k n p.length i hi, hclen,
        flipBit_getD_self k i b (by omega)]
      exact tag_byte_ne_key _ _ _ _ hx (flipByte_lt _ _ hx hb) (flipByte_ne _ _).symm
    rw [mockTagMatches_eq_false t (flipBit k i b) n c.length i hi hne]
    simp
  · -- bit flip in the nonce is detected
    intro j b hj hb
    have hn' : (flipBit n j b).length = 12 := by rw [flipBit_length]; exact hn
    rw [mock_decrypt_ret _ _ _ _ aad hk hn' haad ptBuf]
    have hx : n.getD j 0 < 256 := getD_lt_of_bytes n j hnb (by omega)
    have hj12 : j % 12 = j := Nat.mod_eq_of_lt hj
    have hne : t.getD j 0 ≠
        (k.getD j 0 + (flipBit n j b).getD (j % 12) 0 + c.length) % 256 := by
      rw [ht, mockTag_getD k n p.length j (by omega), hclen, hj12,
        flipBit_getD_self n j b (by omega)]
      exact tag_byte_ne_nonce _ _ _ _ hx (flipByte_lt _ _ hx hb) (flipByte_ne _ _).symm
    rw [mockTagMatches_eq_false t k (flipBit n j b) c.length j (by omega) hne]
    simp
  · -- bit flip in the tag is detected
    intro i b hi hb
    rw [mock_decrypt_ret _ _ _ _ aad hk hn haad ptBuf]
    have hne : (flipBit t i b).getD i 0 ≠
        (k.getD i 0 + n.getD (i % 12) 0 + c.length) % 256 := by
      rw [flipBit_getD_self t i b (by omega), ht,
        mockTag_getD k n p.length i hi, hclen]
      exact flipByte_ne _ _
    rw [mockTagMatches_eq_false (flipBit t i b) k n c.length i hi hne]
    simp
  · -- bit flip in the ciphertext is NOT detected
    intro i b hi hb
    rw [mock_decrypt_ret _ _ _ _ aad hk hn haad ptBuf]
    have hlen : (flipBit c i b).length = p.length := by
      rw [flipBit_length]; exact hclen
    rw [hlen, ht, mockTagMatches_self]
    simp
  · -- a different (valid) aad is NOT detected
    intro aad2 haad2
    rw [mock_decrypt_ret _ _ _ _ aad2 hk hn haad2 ptBuf]
    rw [hclen, ht, mockTagMatches_self]
    simp
  · -- bit flip in key bytes 16..31 is NOT detected
    intro i b hi16 hi32 hb
    have hk' : (flipBit k i b).length = 32 := by rw [flipBit_length]; exact hk
    rw [mock_decrypt_ret _ _ _ _ aad hk' hn haad ptBuf]
    have hm : mockTagMatches t (flipBit k i b) n c.length = true := by
      rw [mockTagMatches, List.all_eq_true]
      intro j hj
      rw [List.mem_range] at hj
      have hj16 : j < 16 := by simpa [AESGCMSIV_TAG_SIZE] using hj
      simp only [beq_iff_eq]
      rw [flipBit_getD_ne k i b j (by omega), hclen, ht,
        mockTag_getD k n p.length j hj16]
    rw [hm]
    simp

/-- Closed witness for C2's amended statement at a concrete input: a bit
flip in key byte 0 is detected, a bit flip in the single ciphertext byte
is not. -/
theorem C2_amended_witness :
    (Mock.aesgcmsiv_decrypt (some (flipBit (List.replicate 32 0) 0 0))
        (some (List.replicate 12 0)) (some [0]) none
        (some (List.replicate 16 1)) false []).ret =
      AESGCMSIV_ERROR_DECRYPT_FAILED ∧
    (Mock.aesgcmsiv_decrypt (some (List.replicate 32 0))
        (some (List.replicate 12 0)) (some (flipBit [0] 0 0)) none
        (some (List.replicate 16 1)) false []).ret = AESGCMSIV_SUCCESS := by
  have h := C2_amended (List.replicate 32 0) (List.replicate 12 0) [0] [0]
    (List.replicate 16 1) none (by decide) (by decide) (by decide) (by decide)
    (by decide) [0] (List.replicate 16 0) (by decide) (by decide) (by decide) []
  exact ⟨h.1 0 0 (by decide) (by decide), h.2.2.2.1 0 0 (by decide) (by decide)⟩

/-- Closed witness for C1 at a concrete input. -/
theorem C1_witness :
    (Mock.aesgcmsiv_encrypt (some (List.replicate 32 0)) (some (List.replicate 12 0))
        (some [104, 101, 108, 108, 111]) none false false [] []).ret =
      AESGCMSIV_SUCCESS ∧
    Mock.aesgcmsiv_decrypt (some (List.replicate 32 0)) (some (List.replicate 12 0))
        (some (Mock.aesgcmsiv_encrypt (some (List.replicate 32 0))
          (some (List.replicate 12 0)) (some [104, 101, 108, 108, 111]) none
          false false [] []).ct)
        none
        (some (Mock.aesgcmsiv_encrypt (some (List.replicate 32 0))
          (some (List.replicate 12 0)) (some [104, 101, 108, 108, 111]) none
          false false [] []).tag)
        false [] =
      ⟨AESGCMSIV_SUCCESS, [104, 101, 108, 108, 111]⟩ :=
  C1_mock_roundtrip (List.replicate 32 0) (List.replicate 12 0)
    [104, 101, 108, 108, 111] none (by decide) (by decide) (by decide)
    [] [] [] (by decide) (by decide) (by decide)

/-- An encrypt engine that always fails, used to instantiate the
engine-parametric production boundary at concrete inputs. -/
def failEncEngine : Production.EncEngine := fun _ _ _ _ => .fail [] []

/-- A decrypt engine that always fails at initialization, used to
instantiate the engine-parametric production boundary at concrete inputs. -/
def failDecEngine : Production.DecEngine := fun _ _ _ _ _ => .initFail

/-- C3: in both backends, precondition checks are applied in the fixed
order key, then nonce, then required buffers, and the first failing check
determines the error; in particular a wrong-length key together with a
wrong-length nonce yields `INVALID_KEY`, never `INVALID_NONCE`. -/
theorem C3_validation_order (key nonce pt ct aad tg : Option (List Nat))
    (b1 b2 b3 : Bool) (ctBuf tagBuf ptBuf : List Nat)
    (ee : Production.EncEngine) (de : Production.DecEngine) :
    (keyBad key = true →
      (Mock.aesgcmsiv_encrypt key nonce pt aad b1 b2 ctBuf tagBuf).ret =
        AESGCMSIV_ERROR_INVALID_KEY ∧
      (Mock.aesgcmsiv_decrypt key nonce ct aad tg b3 ptBuf).ret =
        AESGCMSIV_ERROR_INVALID_KEY ∧
      (Production.aesgcmsiv_encrypt ee key nonce pt aad b1 b2 ctBuf tagBuf).ret =
        AESGCMSIV_ERROR_INVALID_KEY ∧
      (Production.aesgcmsiv_decrypt de key nonce ct aad tg b3 ptBuf).ret =
        AESGCMSIV_ERROR_INVALID_KEY) ∧
    (keyBad key = false → nonceBad nonce = true →
      (Mock.aesgcmsiv_encrypt key nonce pt aad b1 b2 ctBuf tagBuf).ret =
        AESGCMSIV_ERROR_INVALID_NONCE ∧
      (Mock.aesgcmsiv_decrypt key nonce ct aad tg b3 ptBuf).ret =
        AESGCMSIV_ERROR_INVALID_NONCE ∧
      (Production.aesgcmsiv_encrypt ee key nonce pt aad b1 b2 ctBuf tagBuf).ret =
        AESGCMSIV_ERROR_INVALID_NONCE ∧
      (Production.aesgcmsiv_decrypt de key nonce ct aad tg b3 ptBuf).ret =
        AESGCMSIV_ERROR_INVALID_NONCE) ∧
    (keyBad key = false → nonceBad nonce = false →
      (pt.isNone || b1 || b2) = true →
      (Mock.aesgcmsiv_encrypt key nonce pt aad b1 b2 ctBuf tagBuf).ret =
        AESGCMSIV_ERROR_INVALID_INPUT ∧
      (Production.aesgcmsiv_encrypt ee key nonce pt aad b1 b2 ctBuf tagBuf).ret =
        AESGCMSIV_ERROR_INVALID_INPUT) ∧
    (keyBad key = false → nonceBad nonce = false →
      (ct.isNone || tg.isNone || b3) = true →
      (Mock.aesgcmsiv_decrypt key nonce ct aad tg b3 ptBuf).ret =
        AESGCMSIV_ERROR_INVALID_INPUT ∧
      (Production.aesgcmsiv_decrypt de key nonce ct aad tg b3 ptBuf).ret =
        AESGCMSIV_ERROR_INVALID_INPUT) := by
  refine ⟨?_, ?_, ?_, ?_⟩
  · intro h1
    exact ⟨by simp [Mock.aesgcmsiv_encrypt, h1],
      by simp [Mock.aesgcmsiv_decrypt, h1],
      by simp [Production.aesgcmsiv_encrypt, Production.validate_encrypt_params,
        h1, AESGCMSIV_ERROR_INVALID_KEY, AESGCMSIV_SUCCESS],
      by simp [Production.aesgcmsiv_decrypt, Production.validate_decrypt_params,
        h1, AESGCMSIV_ERROR_INVALID_KEY, AESGCMSIV_SUCCESS]⟩
  · intro h1 h2
    exact ⟨by simp [Mock.aesgcmsiv_encrypt, h1, h2],
      by simp [Mock.aesgcmsiv_decrypt, h1, h2],
      by simp [Production.aesgcmsiv_encrypt, Production.validate_encrypt_params,
        h1, h2, AESGCMSIV_ERROR_INVALID_NONCE, AESGCMSIV_SUCCESS],
      by simp [Production.aesgcmsiv_decrypt, Production.validate_decrypt_params,
        h1, h2, AESGCMSIV_ERROR_INVALID_NONCE, AESGCMSIV_SUCCESS]⟩
  · intro h1 h2 h3
    exact ⟨by simp [Mock.aesgcmsiv_encrypt, h1, h2, h3],
      by simp [Production.aesgcmsiv_encrypt, Production.validate_encrypt_params,
        h1, h2, h3, AESGCMSIV_ERROR_INVALID_INPUT, AESGCMSIV_SUCCESS]⟩
  · intro h1 h2 h3
    exact ⟨by simp [Mock.aesgcmsiv_decrypt, h1, h2, h3],
      by simp [Production.aesgcmsiv_decrypt, Production.validate_decrypt_params,
        h1, h2, h3, AESGCMSIV_ERROR_INVALID_INPUT, AESGCMSIV_SUCCESS]⟩

/-- Closed witness for C3: a 31-byte key together with an 11-byte nonce
yields `INVALID_KEY` from both backends' Seal. -/
theorem C3_witness :
    (Mock.aesgcmsiv_encrypt (some (List.replicate 31 0))
        (some (List.replicate 11 0)) (some []) none false false [] []).ret =
      AESGCMSIV_ERROR_INVALID_KEY ∧
    (Production.aesgcmsiv_encrypt failEncEngine (some (List.replicate 31 0))
        (some (List.replicate 11 0)) (some []) none false false [] []).ret =
      AESGCMSIV_ERROR_INVALID_KEY := by
  have h := C3_validation_order (some (List.replicate 31 0))
    (some (List.replicate 11 0)) (some []) (some []) none (some [])
    false false false [] [] [] failEncEngine failDecEngine
  exact ⟨(h.1 (by decide)).1, (h.1 (by decide)).2.2.1⟩

/-- C4: the claim says both backends accept a present-but-zero-length AAD
and treat it identically to an absent AAD.  The production boundary does
(its validators ignore the AAD entirely and a zero-length AAD is never fed
to the engine, exactly like an absent one), but the test-double backend
rejects a present-but-empty AAD with `INVALID_INPUT` on both Seal and Open:
evaluation at the failing input. -/
theorem C4_mock_rejects_empty_aad :
    (Mock.aesgcmsiv_encrypt (some (List.replicate 32 0))
        (some (List.replicate 12 0)) (some [1]) (some []) false false [0]
        (List.replicate 16 0)).ret = AESGCMSIV_ERROR_INVALID_INPUT ∧
    (Mock.aesgcmsiv_decrypt (some (List.replicate 32 0))
        (some (List.replicate 12 0)) (some [1]) (some [])
        (some (List.replicate 16 0)) false [0]).ret =
      AESGCMSIV_ERROR_INVALID_INPUT ∧
    (∀ (ee : Production.EncEngine) (key nonce ptx : Option (List Nat))
        (b1 b2 : Bool) (ctBuf tagBuf : List Nat),
      Production.aesgcmsiv_encrypt ee key nonce ptx (some []) b1 b2 ctBuf tagBuf =
        Production.aesgcmsiv_encrypt ee key nonce ptx none b1 b2 ctBuf tagBuf) ∧
    (∀ (de : Production.DecEngine) (key nonce ctx tg : Option (List Nat))
        (b3 : Bool) (ptBuf : List Nat),
      Production.aesgcmsiv_decrypt de key nonce ctx (some []) tg b3 ptBuf =
        Production.aesgcmsiv_decrypt de key nonce ctx none tg b3 ptBuf) := by
  refine ⟨by decide, by decide, ?_, ?_⟩
  · intro ee key nonce ptx b1 b2 ctBuf tagBuf
    simp [Production.aesgcmsiv_encrypt, Production.aadFed]
  · intro de key nonce ctx tg b3 ptBuf
    simp [Production.aesgcmsiv_decrypt, Production.aadFed]

/-- C5: whenever Seal or Open returns `INVALID_KEY`, `INVALID_NONCE` or
`INVALID_INPUT` (in either backend), no byte of any caller-supplied output
buffer has been written: the output buffers come back exactly as supplied. -/
theorem C5_validation_leaves_outputs (key nonce pt ct aad tg : Option (List Nat))
    (b1 b2 b3 : Bool) (ctBuf tagBuf ptBuf : List Nat)
    (ee : Production.EncEngine) (de : Production.DecEngine) :
    ((Mock.aesgcmsiv_encrypt key nonce pt aad b1 b2 ctBuf tagBuf).ret =
        AESGCMSIV_ERROR_INVALID_KEY ∨
      (Mock.aesgcmsiv_encrypt key nonce pt aad b1 b2 ctBuf tagBuf).ret =
        AESGCMSIV_ERROR_INVALID_NONCE ∨
      (Mock.aesgcmsiv_encrypt key nonce pt aad b1 b2 ctBuf tagBuf).ret =
        AESGCMSIV_ERROR_INVALID_INPUT →
      (Mock.aesgcmsiv_encrypt key nonce pt aad b1 b2 ctBuf tagBuf).ct = ctBuf ∧
      (Mock.aesgcmsiv_encrypt key nonce pt aad b1 b2 ctBuf tagBuf).tag = tagBuf) ∧
    ((Mock.aesgcmsiv_decrypt key nonce ct aad tg b3 ptBuf).ret =
        AESGCMSIV_ERROR_INVALID_KEY ∨
      (Mock.aesgcmsiv_decrypt key nonce ct aad tg b3 ptBuf).ret =
        AESGCMSIV_ERROR_INVALID_NONCE ∨
      (Mock.aesgcmsiv_decrypt key nonce ct aad tg b3 ptBuf).ret =
        AESGCMSIV_ERROR_INVALID_INPUT →
      (Mock.aesgcmsiv_decrypt key nonce ct aad tg b3 ptBuf).pt = ptBuf) ∧
    ((Production.aesgcmsiv_encrypt ee key nonce pt aad b1 b2 ctBuf tagBuf).ret =
        AESGCMSIV_ERROR_INVALID_KEY ∨
      (Production.aesgcmsiv_encrypt ee key nonce pt aad b1 b2 ctBuf tagBuf).ret =
        AESGCMSIV_ERROR_INVALID_NONCE ∨
      (Production.aesgcmsiv_encrypt ee key nonce pt aad b1 b2 ctBuf tagBuf).ret =
        AESGCMSIV_ERROR_INVALID_INPUT →
      (Production.aesgcmsiv_encrypt ee key nonce pt aad b1 b2 ctBuf tagBuf).ct = ctBuf ∧
      (Production.aesgcmsiv_encrypt ee key nonce pt aad b1 b2 ctBuf tagBuf).tag = tagBuf) ∧
    ((Production.aesgcmsiv_decrypt de key nonce ct aad tg b3 ptBuf).ret =
        AESGCMSIV_ERROR_INVALID_KEY ∨
      (Production.aesgcmsiv_decrypt de key nonce ct aad tg b3 ptBuf).ret =
        AESGCMSIV_ERROR_INVALID_NONCE ∨
      (Production.aesgcmsiv_decrypt de key nonce ct aad tg b3 ptBuf).ret =
        AESGCMSIV_ERROR_INVALID_INPUT →
      (Production.aesgcmsiv_decrypt de key nonce ct aad tg b3 ptBuf).pt = ptBuf) := by
  refine ⟨?_, ?_, ?_, ?_⟩
  · intro hret
    by_cases h1 : keyBad key = true
    · simp [Mock.aesgcmsiv_encrypt, h1]
    · by_cases h2 : nonceBad nonce = true
      · simp [Mock.aesgcmsiv_encrypt, h1, h2]
      · by_cases h3 : (pt.isNone || b1 || b2) = true
        · simp [Mock.aesgcmsiv_encrypt, h1, h2, h3]
        · by_cases h4 : aadPresentEmpty aad = true
          · simp [Mock.aesgcmsiv_encrypt, h1, h2, h3, h4]
          · exfalso
            simp [Mock.aesgcmsiv_encrypt, h1, h2, h3, h4, AESGCMSIV_SUCCESS,
              AESGCMSIV_ERROR_INVALID_KEY, AESGCMSIV_ERROR_INVALID_NONCE,
              AESGCMSIV_ERROR_INVALID_INPUT] at hret
  · intro hret
    by_cases h1 : keyBad key = true
    · simp [Mock.aesgcmsiv_decrypt, h1]
    · by_cases h2 : nonceBad nonce = true
      · simp [Mock.aesgcmsiv_decrypt, h1, h2]
      · by_cases h3 : (ct.isNone || tg.isNone || b3) = true
        · simp [Mock.aesgcmsiv_decrypt, h1, h2, h3]
        · by_cases h4 : aadPresentEmpty aad = true
          · simp [Mock.aesgcmsiv_decrypt, h1, h2, h3, h4]
          · exfalso
            by_cases h5 : mockTagMatches (tg.getD []) (key.getD []) (nonce.getD [])
                (ct.getD []).length = true <;>
              simp [Mock.aesgcmsiv_decrypt, h1, h2, h3, h4, h5, AESGCMSIV_SUCCESS,
                AESGCMSIV_ERROR_INVALID_KEY, AESGCMSIV_ERROR_INVALID_NONCE,
                AESGCMSIV_ERROR_INVALID_INPUT, AESGCMSIV_ERROR_DECRYPT_FAILED] at hret
  · intro hret
    by_cases h1 : keyBad key = true
    · simp [Production.aesgcmsiv_encrypt, Production.validate_encrypt_params, h1,
        AESGCMSIV_ERROR_INVALID_KEY, AESGCMSIV_SUCCESS]
    · by_cases h2 : nonceBad nonce = true
      · simp [Production.aesgcmsiv_encrypt, Production.validate_encrypt_params,
          h1, h2, AESGCMSIV_ERROR_INVALID_NONCE, AESGCMSIV_SUCCESS]
      · by_cases h3 : (pt.isNone || b1 || b2) = true
        · simp [Production.aesgcmsiv_encrypt, Production.validate_encrypt_params,
            h1, h2, h3, AESGCMSIV_ERROR_INVALID_INPUT, AESGCMSIV_SUCCESS]
        · exfalso
          cases hee : ee (key.getD []) (nonce.getD []) (Production.aadFed aad)
              (pt.getD []) <;>
            simp [Production.aesgcmsiv_encrypt, Production.validate_encrypt_params,
              h1, h2, h3, hee, AESGCMSIV_SUCCESS, AESGCMSIV_ERROR_INVALID_KEY,
              AESGCMSIV_ERROR_INVALID_NONCE, AESGCMSIV_ERROR_INVALID_INPUT,
              AESGCMSIV_ERROR_INTERNAL] at hret
  · intro hret
    by_cases h1 : keyBad key = true
    · simp [Production.aesgcmsiv_decrypt, Production.validate_decrypt_params, h1,
        AESGCMSIV_ERROR_INVALID_KEY, AESGCMSIV_SUCCESS]
    · by_cases h2 : nonceBad nonce = true
      · simp [Production.aesgcmsiv_decrypt, Production.validate_decrypt_params,
          h1, h2, AESGCMSIV_ERROR_INVALID_NONCE, AESGCMSIV_SUCCESS]
      · by_cases h3 : (ct.isNone || tg.isNone || b3) = true
        · simp [Production.aesgcmsiv_decrypt, Production.validate_decrypt_params,
            h1, h2, h3, AESGCMSIV_ERROR_INVALID_INPUT, AESGCMSIV_SUCCESS]
        · exfalso
          cases hde : de (key.getD []) (nonce.getD []) (Production.aadFed aad)
              (ct.getD []) (tg.getD []) <;>
            simp [Production.aesgcmsiv_decrypt, Production.validate_decrypt_params,
              h1, h2, h3, hde, AESGCMSIV_SUCCESS, AESGCMSIV_ERROR_INVALID_KEY,
              AESGCMSIV_ERROR_INVALID_NONCE, AESGCMSIV_ERROR_INVALID_INPUT,
              AESGCMSIV_ERROR_INVALID_TAG, AESGCMSIV_ERROR_INTERNAL,
              AESGCMSIV_ERROR_DECRYPT_FAILED] at hret

/-- Closed witness for C5: a null key leaves the nonempty output buffers
of both backends' Seal untouched. -/
theorem C5_witness :
    (Mock.aesgcmsiv_encrypt none (some (List.replicate 12 0)) (some []) none
        false false [7] [8]).ct = [7] ∧
    (Mock.aesgcmsiv_encrypt none (some (List.replicate 12 0)) (some []) none
        false false [7] [8]).tag = [8] ∧
    (Production.aesgcmsiv_encrypt failEncEngine none (some (List.replicate 12 0))
        (some []) none false false [7] [8]).ct = [7] := by
  have h := C5_validation_leaves_outputs none (some (List.replicate 12 0))
    (some []) (some []) none (some []) false false false [7] [8] []
    failEncEngine failDecEngine
  exact ⟨(h.1 (Or.inl (by decide))).1, (h.1 (Or.inl (by decide))).2,
    (h.2.2.1 (Or.inl (by decide))).1⟩

theorem getD_eq_of_take_eq (l1 l2 : List Nat) (m i : Nat)
    (h : l1.take m = l2.take m) (hi : i < m) : l1.getD i 0 = l2.getD i 0 := by
  have h1 := congrArg (fun l => l[i]?) h
  simp only [List.getElem?_take, hi, if_pos] at h1
  simp [List.getD_eq_getElem?_getD, h1]

theorem mockTag_congr_key (k1 k2 n : List Nat) (len : Nat)
    (hk : k1.take 16 = k2.take 16) : mockTag k1 n len = mockTag k2 n len := by
  rw [mockTag, mockTag]
  apply List.map_congr_left
  intro i hi
  rw [List.mem_range] at hi
  have h16 : i < 16 := by simpa [AESGCMSIV_TAG_SIZE] using hi
  rw [getD_eq_of_take_eq k1 k2 16 i hk h16]

/-- C6: the test-double backend is deterministic — two Seal calls with the
same (key, nonce, plaintext, aad), even against different prior contents of
the output buffers, return identical results (return code, ciphertext and
tag). -/
theorem C6_mock_deterministic (k n p : List Nat) (aad : Option (List Nat))
    (hk : k.length = 32) (hn : n.length = 12)
    (haad : aadPresentEmpty aad = false)
    (ctBuf1 tagBuf1 ctBuf2 tagBuf2 : List Nat)
    (h1 : ctBuf1.length ≤ p.length) (h2 : tagBuf1.length ≤ 16)
    (h3 : ctBuf2.length ≤ p.length) (h4 : tagBuf2.length ≤ 16) :
    Mock.aesgcmsiv_encrypt (some k) (some n) (some p) aad false false
        ctBuf1 tagBuf1 =
      Mock.aesgcmsiv_encrypt (some k) (some n) (some p) aad false false
        ctBuf2 tagBuf2 := by
  rw [mock_encrypt_eq k n p aad hk hn haad ctBuf1 tagBuf1,
    mock_encrypt_eq k n p aad hk hn haad ctBuf2 tagBuf2,
    writeBytes_of_le ctBuf1 _ (by rw [xorStream_length]; exact h1),
    writeBytes_of_le ctBuf2 _ (by rw [xorStream_length]; exact h3),
    writeBytes_of_le tagBuf1 _ (by rw [mockTag_length]; exact h2),
    writeBytes_of_le tagBuf2 _ (by rw [mockTag_length]; exact h4)]

/-- Closed witness for C6 at a concrete input. -/
theorem C6_witness :
    Mock.aesgcmsiv_encrypt (some (List.replicate 32 2)) (some (List.replicate 12 3))
        (some [10, 20]) none false false [] [] =
      Mock.aesgcmsiv_encrypt (some (List.replicate 32 2)) (some (List.replicate 12 3))
        (some [10, 20]) none false false [5, 5] [6] :=
  C6_mock_deterministic (List.replicate 32 2) (List.replicate 12 3) [10, 20] none
    (by decide) (by decide) (by decide) [] [] [5, 5] [6]
    (by decide) (by decide) (by decide) (by decide)

/-- C7: Seal with a zero-length plaintext and valid key/nonce succeeds,
produces a zero-length ciphertext and a 16-byte tag, and Open on that
(empty ciphertext, tag) succeeds and returns the zero-length plaintext. -/
theorem C7_empty_plaintext (k n : List Nat) (hk : k.length = 32)
    (hn : n.length = 12) (tagBuf : List Nat) (htag : tagBuf.length ≤ 16) :
    (Mock.aesgcmsiv_encrypt (some k) (some n) (some []) none false false
        [] tagBuf).ret = AESGCMSIV_SUCCESS ∧
    (Mock.aesgcmsiv_encrypt (some k) (some n) (some []) none false false
        [] tagBuf).ct = [] ∧
    (Mock.aesgcmsiv_encrypt (some k) (some n) (some []) none false false
        [] tagBuf).tag.length = 16 ∧
    Mock.aesgcmsiv_decrypt (some k) (some n)
        (some (Mock.aesgcmsiv_encrypt (some k) (some n) (some []) none false false
          [] tagBuf).ct)
        none
        (some (Mock.aesgcmsiv_encrypt (some k) (some n) (some []) none false false
          [] tagBuf).tag)
        false [] =
      ⟨AESGCMSIV_SUCCESS, []⟩ := by
  rw [mock_encrypt_eq k n [] none hk hn rfl [] tagBuf]
  have htagw : writeBytes tagBuf (mockTag k n ([] : List Nat).length) =
      mockTag k n ([] : List Nat).length :=
    writeBytes_of_le _ _ (by rw [mockTag_length]; exact htag)
  have hctw : writeBytes [] (xorStream k n []) = ([] : List Nat) := by
    simp [writeBytes, xorStream, xorStreamAux]
  refine ⟨rfl, hctw, ?_, ?_⟩
  · simp only [htagw]
    exact mockTag_length k n _
  · simp only [hctw, htagw]
    rw [mock_decrypt_ret k n [] _ none hk hn rfl []]
    rw [mockTagMatches_self]
    simp [writeBytes, xorStream, xorStreamAux]

/-- Closed witness for C7 at a concrete input. -/
theorem C7_witness :
    (Mock.aesgcmsiv_encrypt (some (List.replicate 32 1)) (some (List.replicate 12 2))
        (some []) none false false [] []).ret = AESGCMSIV_SUCCESS ∧
    (Mock.aesgcmsiv_encrypt (some (List.replicate 32 1)) (some (List.replicate 12 2))
        (some []) none false false [] []).ct = [] ∧
    (Mock.aesgcmsiv_encrypt (some (List.replicate 32 1)) (some (List.replicate 12 2))
        (some []) none false false [] []).tag.length = 16 ∧
    Mock.aesgcmsiv_decrypt (some (List.replicate 32 1)) (some (List.replicate 12 2))
        (some (Mock.aesgcmsiv_encrypt (some (List.replicate 32 1))
          (some (List.replicate 12 2)) (some []) none false false [] []).ct)
        none
        (some (Mock.aesgcmsiv_encrypt (some (List.replicate 32 1))
          (some (List.replicate 12 2)) (some []) none false false [] []).tag)
        false [] =
      ⟨AESGCMSIV_SUCCESS, []⟩ :=
  C7_empty_plaintext (List.replicate 32 1) (List.replicate 12 2)
    (by decide) (by decide) [] (by decide)

/-- C8: for every successful Seal of the test-double backend the ciphertext
written has exactly the length of the plaintext and the tag has length 16;
for every successful Open the plaintext written has exactly the length of
the ciphertext (buffers supplied with capacity equal to the input length). -/
theorem C8_length_preservation (k n p c t : List Nat) (aad aad2 : Option (List Nat))
    (hk : k.length = 32) (hn : n.length = 12)
    (haad : aadPresentEmpty aad = false) (haad2 : aadPresentEmpty aad2 = false)
    (ctBuf tagBuf ptBuf : List Nat)
    (hcb : ctBuf.length = p.length) (htb : tagBuf.length = 16)
    (hpb : ptBuf.length = c.length) :
    (Mock.aesgcmsiv_encrypt (some k) (some n) (some p) aad false false
        ctBuf tagBuf).ret = AESGCMSIV_SUCCESS ∧
    (Mock.aesgcmsiv_encrypt (some k) (some n) (some p) aad false false
        ctBuf tagBuf).ct.length = p.length ∧
    (Mock.aesgcmsiv_encrypt (some k) (some n) (some p) aad false false
        ctBuf tagBuf).tag.length = 16 ∧
    ((Mock.aesgcmsiv_decrypt (some k) (some n) (some c) aad2 (some t)
        false ptBuf).ret = AESGCMSIV_SUCCESS →
      (Mock.aesgcmsiv_decrypt (some k) (some n) (some c) aad2 (some t)
        false ptBuf).pt.length = c.length) := by
  rw [mock_encrypt_eq k n p aad hk hn haad ctBuf tagBuf]
  refine ⟨rfl, ?_, ?_, ?_⟩
  · rw [writeBytes_length ctBuf _ (by rw [xorStream_length]; omega)]
    exact hcb
  · rw [writeBytes_length tagBuf _ (by rw [mockTag_length]; omega)]
    exact htb
  · intro _
    rw [mock_decrypt_ret k n c t aad2 hk hn haad2 ptBuf]
    rw [writeBytes_length ptBuf _ (by rw [xorStream_length]; omega)]
    exact hpb

/-- Closed witness for C8 at a concrete input. -/
theorem C8_witness :
    (Mock.aesgcmsiv_encrypt (some (List.replicate 32 0)) (some (List.replicate 12 0))
        (some [1, 2, 3]) none false false [0, 0, 0] (List.replicate 16 0)).ret =
      AESGCMSIV_SUCCESS ∧
    (Mock.aesgcmsiv_encrypt (some (List.replicate 32 0)) (some (List.replicate 12 0))
        (some [1, 2, 3]) none false false [0, 0, 0] (List.replicate 16 0)).ct.length =
      ([1, 2, 3] : List Nat).length ∧
    (Mock.aesgcmsiv_encrypt (some (List.replicate 32 0)) (some (List.replicate 12 0))
        (some [1, 2, 3]) none false false [0, 0, 0] (List.replicate 16 0)).tag.length =
      16 ∧
    ((Mock.aesgcmsiv_decrypt (some (List.replicate 32 0)) (some (List.replicate 12 0))
        (some [1, 2, 3]) none (some (List.replicate 16 3)) false [0, 0, 0]).ret =
        AESGCMSIV_SUCCESS →
      (Mock.aesgcmsiv_decrypt (some (List.replicate 32 0)) (some (List.replicate 12 0))
        (some [1, 2, 3]) none (some (List.replicate 16 3)) false [0, 0, 0]).pt.length =
        ([1, 2, 3] : List Nat).length) :=
  C8_length_preservation (List.replicate 32 0) (List.replicate 12 0) [1, 2, 3]
    [1, 2, 3] (List.replicate 16 3) none none (by decide) (by decide) (by decide)
    (by decide) [0, 0, 0] (List.replicate 16 0) [0, 0, 0]
    (by decide) (by decide) (by decide)

/-- C9 (implicit): the test-double Open writes the fully XOR-transformed
bytes into the plaintext output buffer before verifying the tag, so when it
returns `DECRYPT_FAILED` the buffer has already been overwritten with the
transform of the (possibly tampered) ciphertext. -/
theorem C9_decrypt_writes_before_verify (k n c t : List Nat)
    (aad : Option (List Nat)) (hk : k.length = 32) (hn : n.length = 12)
    (haad : aadPresentEmpty aad = false) (ptBuf : List Nat)
    (hret : (Mock.aesgcmsiv_decrypt (some k) (some n) (some c) aad (some t)
        false ptBuf).ret = AESGCMSIV_ERROR_DECRYPT_FAILED) :
    (Mock.aesgcmsiv_decrypt (some k) (some n) (some c) aad (some t)
        false ptBuf).pt = writeBytes ptBuf (xorStream k n c) := by
  rw [mock_decrypt_ret k n c t aad hk hn haad ptBuf]

/-- Closed witness for C9 at a concrete input: Open fails on an all-zero
tag yet the buffer holds the transform of the ciphertext. -/
theorem C9_witness :
    (Mock.aesgcmsiv_decrypt (some (List.replicate 32 0)) (some (List.replicate 12 0))
        (some [5]) none (some (List.replicate 16 0)) false [9]).ret =
        AESGCMSIV_ERROR_DECRYPT_FAILED ∧
    (Mock.aesgcmsiv_decrypt (some (List.replicate 32 0)) (some (List.replicate 12 0))
        (some [5]) none (some (List.replicate 16 0)) false [9]).pt =
      writeBytes [9] (xorStream (List.replicate 32 0) (List.replicate 12 0) [5]) :=
  ⟨by decide,
    C9_decrypt_writes_before_verify (List.replicate 32 0) (List.replicate 12 0)
      [5] (List.replicate 16 0) none (by decide) (by decide) (by decide) [9]
      (by decide)⟩

/-- C10 (implicit): in the test-double backend the tag produced by Seal
depends only on the first 16 key bytes, the nonce, and the plaintext
length — two Seals under keys agreeing on their first 16 bytes, the same
nonce, any valid aads, and plaintexts of equal length produce identical
tags. -/
theorem C10_tag_only_key16_nonce_len (k1 k2 n p1 p2 : List Nat)
    (aad1 aad2 : Option (List Nat))
    (hk1 : k1.length = 32) (hk2 : k2.length = 32)
    (hk : k1.take 16 = k2.take 16)
    (hn : n.length = 12) (hlen : p1.length = p2.length)
    (ha1 : aadPresentEmpty aad1 = false) (ha2 : aadPresentEmpty aad2 = false)
    (ctBuf1 tagBuf1 ctBuf2 tagBuf2 : List Nat)
    (hc1 : ctBuf1.length ≤ p1.length) (ht1 : tagBuf1.length ≤ 16)
    (hc2 : ctBuf2.length ≤ p2.length) (ht2 : tagBuf2.length ≤ 16) :
    (Mock.aesgcmsiv_encrypt (some k1) (some n) (some p1) aad1 false false
        ctBuf1 tagBuf1).tag =
      (Mock.aesgcmsiv_encrypt (some k2) (some n) (some p2) aad2 false false
        ctBuf2 tagBuf2).tag := by
  rw [mock_encrypt_eq k1 n p1 aad1 hk1 hn ha1 ctBuf1 tagBuf1,
    mock_encrypt_eq k2 n p2 aad2 hk2 hn ha2 ctBuf2 tagBuf2]
  dsimp
  rw [writeBytes_of_le tagBuf1 _ (by rw [mockTag_length]; exact ht1),
    writeBytes_of_le tagBuf2 _ (by rw [mockTag_length]; exact ht2),
    hlen, mockTag_congr_key k1 k2 n p2.length hk]

/-- Closed witness for C10 at a concrete input: different upper key halves,
different aads and different equal-length plaintexts, same tag. -/
theorem C10_witness :
    (Mock.aesgcmsiv_encrypt
        (some (List.replicate 16 1 ++ List.replicate 16 7)) (some (List.replicate 12 0))
        (some [10, 20]) none false false [] []).tag =
      (Mock.aesgcmsiv_encrypt
        (some (List.replicate 16 1 ++ List.replicate 16 9)) (some (List.replicate 12 0))
        (some [30, 40]) (some [5]) false false [] []).tag :=
  C10_tag_only_key16_nonce_len
    (List.replicate 16 1 ++ List.replicate 16 7)
    (List.replicate 16 1 ++ List.replicate 16 9)
    (List.replicate 12 0) [10, 20] [30, 40] none (some [5])
    (by decide) (by decide) (by decide) (by decide) (by decide)
    (by decide) (by decide) [] [] [] []
    (by decide) (by decide) (by decide) (by decide)

end AesGcmSiv
